import Mathlib

/-!
Shallow embedding of the Pure Data external `adsr~.cpp` (nonlinear ADSR
envelope generator, later/canonical version of the source).

Modelling conventions:
* C++ `double` values are modelled as exact rationals `ℚ`; `int` as `ℤ`.
* `std::clamp`, `std::max` and `static_cast<int>` are modelled exactly
  (`static_cast<int>` truncates toward zero).
* `std::pow` appears in `power_lerp` only on the branch `shape ≠ 1.0`;
  it is modelled by `qpow`, exact for integer exponents.  Every theorem
  below that inspects an envelope value goes through the `shape = 1.0`
  short-circuit of `power_lerp` (as in the source), so the `qpow` branch
  never influences a proved statement about envelope values.
* The struct field `adsr_phase_ptr phaseFunc` is kept in lock-step with
  the `phase` field by `enter_phase`'s switch (each phase is bound to
  exactly its own evaluation function), so the function pointer is
  modelled as dispatch on `phase` (`phaseFunc` below).
* `pd_new` zero-initializes the object memory, so the fields that
  `adsr_new` does not assign (the four phase sample counts,
  `currentSample`, `phaseStartEnv`) start at zero.
-/

/-- Envelope phase enumeration (`t_adsr_phase` in the source). -/
inductive t_adsr_phase
  | Idle
  | Startup
  | Attack
  | Decay
  | Sustain
  | Release
deriving DecidableEq

/-- The object state `t_adsr_tilde` (numeric/engine fields only; the Pd
boilerplate fields `x_obj`, `x_out` and the function pointer carry no
envelope state of their own). -/
structure t_adsr_tilde where
  phase : t_adsr_phase
  samplerate : ℚ
  sampleratems : ℚ
  attackTime : ℚ
  decayTime : ℚ
  sustainLevel : ℚ
  releaseTime : ℚ
  attackShape : ℚ
  releaseShape : ℚ
  currentEnv : ℚ
  phaseStartEnv : ℚ
  startAtCurrentEnv : Bool
  attackPhaseSamples : ℤ
  decayPhaseSamples : ℤ
  releasePhaseSamples : ℤ
  startupPhaseSamples : ℤ
  currentSample : ℤ
  gain : ℚ
deriving DecidableEq

/-- Startup time defines the time to move the env to zero in the first
step (`const int startupTime = 3` in the source, milliseconds). -/
def startupTime : ℤ := 3

/-- Model of `std::clamp(v, lo, hi)`: `v < lo ? lo : hi < v ? hi : v`. -/
def std_clamp (v lo hi : ℚ) : ℚ :=
  if v < lo then lo else if hi < v then hi else v

/-- Model of `static_cast<int>` applied to a double: truncation toward
zero. -/
def castInt (q : ℚ) : ℤ :=
  if q < 0 then -Rat.floor (-q) else Rat.floor q

/-- Model of `std::pow` on rationals.  Exact whenever the exponent is an
integer; rational powers at non-integer exponents are irrational in
general, so they cannot be represented in `ℚ` — the value `0` returned
in that case is junk and is never reached by any theorem in this file
(all evaluated envelope paths take the `shape = 1.0` short-circuit of
`power_lerp`, exactly as in the source). -/
def qpow (p shape : ℚ) : ℚ :=
  if shape.den = 1 then p ^ shape.num else 0

/-- Helper: shaped progress with exponential curvature (linear
interpolation); `power_lerp` in the source. -/
def power_lerp (start endVal p shape : ℚ) : ℚ :=
  if shape = 1 then start + (endVal - start) * p
  else
    let curved := if endVal < start then 1 - qpow (1 - p) shape else qpow p shape
    start + (endVal - start) * curved

/-- Enter a new phase and prepare sample counters (`enter_phase`).  The
switch that binds the function pointer is modelled by the dispatch in
`phaseFunc` below. -/
def enter_phase (x : t_adsr_tilde) (newPhase : t_adsr_phase) : t_adsr_tilde :=
  { x with phase := newPhase, currentSample := 0 }

/-- Per-sample evaluation while in Startup (`startupPhase`). -/
def startupPhase (x : t_adsr_tilde) : t_adsr_tilde :=
  let p : ℚ := (x.currentSample : ℚ) / (x.startupPhaseSamples : ℚ)
  let x1 := { x with currentEnv := power_lerp x.phaseStartEnv 0 p 1,
                     currentSample := x.currentSample + 1 }
  if x1.currentSample ≥ x1.startupPhaseSamples then
    enter_phase { x1 with phaseStartEnv := 0 } t_adsr_phase.Attack
  else x1

/-- Per-sample evaluation while in Attack (`attackPhase`). -/
def attackPhase (x : t_adsr_tilde) : t_adsr_tilde :=
  let p : ℚ := (x.currentSample : ℚ) / (x.attackPhaseSamples : ℚ)
  let x1 := { x with currentEnv := power_lerp x.phaseStartEnv 1 p x.attackShape,
                     currentSample := x.currentSample + 1 }
  if x1.currentSample ≥ x1.attackPhaseSamples then
    enter_phase x1 t_adsr_phase.Decay
  else x1

/-- Per-sample evaluation while in Decay (`decayPhase`). -/
def decayPhase (x : t_adsr_tilde) : t_adsr_tilde :=
  let p : ℚ := (x.currentSample : ℚ) / (x.decayPhaseSamples : ℚ)
  let x1 := { x with currentEnv := (1 - p) * (1 - x.sustainLevel) + x.sustainLevel,
                     currentSample := x.currentSample + 1 }
  if x1.currentSample ≥ x1.decayPhaseSamples then
    enter_phase x1 t_adsr_phase.Sustain
  else x1

/-- Per-sample evaluation while in Sustain (`sustainPhase`). -/
def sustainPhase (x : t_adsr_tilde) : t_adsr_tilde :=
  { x with currentEnv := x.sustainLevel }

/-- Per-sample evaluation while in Release (`releasePhase`).  Note the
divisor `releasePhaseSamples - 1` (the later version of the source;
the in-model rational division returns the junk value `0` on a zero
divisor, where the C++ double division `0.0/0.0` yields NaN). -/
def releasePhase (x : t_adsr_tilde) : t_adsr_tilde :=
  let p : ℚ := (x.currentSample : ℚ) / ((x.releasePhaseSamples - 1 : ℤ) : ℚ)
  let x1 := { x with currentEnv := power_lerp x.phaseStartEnv 0 p x.releaseShape,
                     currentSample := x.currentSample + 1 }
  if x1.currentSample ≥ x1.releasePhaseSamples then
    enter_phase x1 t_adsr_phase.Idle
  else x1

/-- Per-sample evaluation while in Idle (`idlePhase`). -/
def idlePhase (x : t_adsr_tilde) : t_adsr_tilde :=
  { x with currentEnv := 0 }

/-- One per-sample invocation of the currently bound phase evaluation
function (the call through the function pointer inside `adsr_perform`);
`enter_phase` binds each phase to exactly its own evaluation function,
so the function pointer is dispatch on `phase`. -/
def phaseFunc (x : t_adsr_tilde) : t_adsr_tilde :=
  match x.phase with
  | t_adsr_phase.Idle => idlePhase x
  | t_adsr_phase.Startup => startupPhase x
  | t_adsr_phase.Attack => attackPhase x
  | t_adsr_phase.Decay => decayPhase x
  | t_adsr_phase.Sustain => sustainPhase x
  | t_adsr_phase.Release => releasePhase x

/-- The signal processing loop `adsr_perform`: `n` per-sample steps,
emitting `currentEnv * gain` after each step.  Returns the final state
and the emitted block. -/
def adsr_perform (x : t_adsr_tilde) : ℕ → t_adsr_tilde × List ℚ
  | 0 => (x, [])
  | n + 1 =>
    let x1 := phaseFunc x
    let r := adsr_perform x1 n
    (r.1, x1.currentEnv * x1.gain :: r.2)

/-- Trigger method `adsr_trigger_start`. -/
def adsr_trigger_start (x : t_adsr_tilde) : t_adsr_tilde :=
  if !x.startAtCurrentEnv then
    enter_phase { x with phaseStartEnv := x.currentEnv } t_adsr_phase.Startup
  else
    enter_phase { x with phaseStartEnv := x.currentEnv } t_adsr_phase.Attack

/-- Trigger method `adsr_trigger_stop`. -/
def adsr_trigger_stop (x : t_adsr_tilde) : t_adsr_tilde :=
  if x.phase ≠ t_adsr_phase.Idle ∧ x.phase ≠ t_adsr_phase.Release then
    enter_phase { x with phaseStartEnv := x.currentEnv } t_adsr_phase.Release
  else x

/-- Parameter setter `adsr_attack` (time in milliseconds). -/
def adsr_attack (x : t_adsr_tilde) (f : ℚ) : t_adsr_tilde :=
  let x1 := { x with attackTime := std_clamp f 0 10000 }
  { x1 with attackPhaseSamples := max 1 (castInt (x1.attackTime * x1.sampleratems)) }

/-- Parameter setter `adsr_decay` (time in milliseconds). -/
def adsr_decay (x : t_adsr_tilde) (f : ℚ) : t_adsr_tilde :=
  let x1 := { x with decayTime := std_clamp f 0 10000 }
  { x1 with decayPhaseSamples := max 1 (castInt (x1.decayTime * x1.sampleratems)) }

/-- Parameter setter `adsr_release` (time in milliseconds); when the
object was created in start-from-silence mode (`!startAtCurrentEnv`)
the requested time is reduced by `startupTime` before clamping. -/
def adsr_release (x : t_adsr_tilde) (f : ℚ) : t_adsr_tilde :=
  let t : ℚ := if !x.startAtCurrentEnv then (startupTime : ℚ) else 0
  let x1 := { x with releaseTime := std_clamp (f - t) 0 10000 }
  { x1 with releasePhaseSamples := max 1 (castInt (x1.releaseTime * x1.sampleratems)) }

/-- Parameter setter `adsr_sustain` (level in [0..1]). -/
def adsr_sustain (x : t_adsr_tilde) (f : ℚ) : t_adsr_tilde :=
  { x with sustainLevel := std_clamp f 0 1 }

/-- Shape mapping `map_shape_to_exponent`. -/
def map_shape_to_exponent (f : ℚ) : ℚ :=
  let shape := std_clamp f (-1) 1
  if shape < 0 then 1 + shape * (9/10) else 1 + shape * 9

/-- Parameter setter `adsr_attackshape`. -/
def adsr_attackshape (x : t_adsr_tilde) (f : ℚ) : t_adsr_tilde :=
  { x with attackShape := map_shape_to_exponent f }

/-- Parameter setter `adsr_releaseshape`. -/
def adsr_releaseshape (x : t_adsr_tilde) (f : ℚ) : t_adsr_tilde :=
  { x with releaseShape := map_shape_to_exponent f }

/-- Parameter setter `adsr_g` (output gain). -/
def adsr_g (x : t_adsr_tilde) (f : ℚ) : t_adsr_tilde :=
  { x with gain := std_clamp f 0 1 }

/-- Block setup `adsr_dsp`: stores the host sample rate, derives
`sampleratems` and recomputes the fixed startup sample count. -/
def adsr_dsp (x : t_adsr_tilde) (sr : ℚ) : t_adsr_tilde :=
  let x1 := { x with samplerate := sr }
  let x2 := { x1 with sampleratems := x1.samplerate / 1000 }
  { x2 with startupPhaseSamples := max 1 (castInt ((startupTime : ℚ) * x2.sampleratems)) }

/-- Object constructor `adsr_new` with creation argument `f`.  Fields
not assigned by the constructor body are zero-initialized by `pd_new`
(calloc-backed allocation). -/
def adsr_new (f : ℚ) : t_adsr_tilde :=
  { phase := t_adsr_phase.Idle
    samplerate := 44100
    sampleratems := 441/10
    attackTime := 1/100
    decayTime := 1/10
    sustainLevel := 7/10
    releaseTime := 1/5
    attackShape := 2
    releaseShape := 1
    currentEnv := 0
    phaseStartEnv := 0
    startAtCurrentEnv := decide (f = 1)
    attackPhaseSamples := 0
    decayPhaseSamples := 0
    releasePhaseSamples := 0
    startupPhaseSamples := 0
    currentSample := 0
    gain := 1 }

/-- The operating-mode flag the spec calls `startFromSilence`.  The
source stores its negation: `adsr_trigger_start` routes through the
Startup ramp exactly when `startAtCurrentEnv` is false. -/
def startFromSilence (x : t_adsr_tilde) : Bool := !x.startAtCurrentEnv

/-- Spec-side definition for the derivation rule of the sample counts:
the data-model section reads "= max(1, round(timeMs * sampleRate /
1000))"; `roundSpec` is rounding to the nearest integer (half up), to
be compared with the code-side truncation `castInt`. -/
def roundSpec (q : ℚ) : ℤ := Rat.floor (q + 1/2)

/-- Concrete state at the end of a two-sample Release phase (exponent
1, `releasePhaseSamples = 2`, in-phase sample index 1), used as a
witness input. -/
def releaseEndState : t_adsr_tilde :=
  { phase := t_adsr_phase.Release, samplerate := 44100, sampleratems := 44,
    attackTime := 1, decayTime := 1, sustainLevel := 1/2, releaseTime := 1,
    attackShape := 1, releaseShape := 1, currentEnv := 1/2, phaseStartEnv := 1/2,
    startAtCurrentEnv := true, attackPhaseSamples := 1, decayPhaseSamples := 1,
    releasePhaseSamples := 2, startupPhaseSamples := 1, currentSample := 1, gain := 1 }

/-- Concrete state at the last sample of a four-sample linear Attack
phase, used as a witness input. -/
def attackEndState : t_adsr_tilde :=
  { phase := t_adsr_phase.Attack, samplerate := 44100, sampleratems := 44,
    attackTime := 1, decayTime := 1, sustainLevel := 1/2, releaseTime := 1,
    attackShape := 1, releaseShape := 1, currentEnv := 0, phaseStartEnv := 0,
    startAtCurrentEnv := true, attackPhaseSamples := 4, decayPhaseSamples := 5,
    releasePhaseSamples := 2, startupPhaseSamples := 1, currentSample := 3, gain := 1 }

/-- Concrete Idle state (value 0, linear attack shape, three attack
samples, `startAtCurrentEnv = true` so `startFromSilence` is false),
used as a witness input. -/
def idleStartState : t_adsr_tilde :=
  { phase := t_adsr_phase.Idle, samplerate := 44100, sampleratems := 44,
    attackTime := 1, decayTime := 1, sustainLevel := 1/2, releaseTime := 1,
    attackShape := 1, releaseShape := 1, currentEnv := 0, phaseStartEnv := 0,
    startAtCurrentEnv := true, attackPhaseSamples := 3, decayPhaseSamples := 5,
    releasePhaseSamples := 2, startupPhaseSamples := 1, currentSample := 0, gain := 1 }

/-- Concrete control-path run: construct with flag 1 (Attack starts at
the current envelope value, `startFromSilence` false), set up dsp at
44100 Hz, set attack time 0 ms (count floored to one sample), set a
linear attack shape, set decay 100 ms, then trigger Start from Idle. -/
def attackBoundaryRun : t_adsr_tilde :=
  adsr_trigger_start
    (adsr_decay (adsr_attackshape (adsr_attack (adsr_dsp (adsr_new 1) 44100) 0) 0) 100)

/-- Concrete control path reaching Idle with value 0: construct with
flag 1, set up dsp at 44100 Hz, set attack time 0.05 ms (two samples at
44.1 kHz) and a linear attack shape. -/
def preTriggerState : t_adsr_tilde :=
  adsr_attackshape (adsr_attack (adsr_dsp (adsr_new 1) 44100) (5/100)) 0

/-- Triggering Start on `preTriggerState`: a two-sample Attack run from
value 0 with a linear shape. -/
def attackTwoSampleRun : t_adsr_tilde :=
  adsr_trigger_start preTriggerState

/-- Concrete control-path run reaching the Release phase with
`releasePhaseSamples = 1`: construct with flag 1, set up dsp at
44100 Hz, set release time 0 ms (count floored to one sample), trigger
Start (enters Attack) and then Stop (enters Release). -/
def divZeroRun : t_adsr_tilde :=
  adsr_trigger_stop (adsr_trigger_start (adsr_release (adsr_dsp (adsr_new 1) 44100) 0))

/-- Lower bound of `std_clamp` when the range is nonempty. -/
theorem std_clamp_lower (v lo hi : ℚ) (h : lo ≤ hi) : lo ≤ std_clamp v lo hi := by
  unfold std_clamp; split_ifs <;> linarith

/-- Upper bound of `std_clamp` when the range is nonempty. -/
theorem std_clamp_upper (v lo hi : ℚ) (h : lo ≤ hi) : std_clamp v lo hi ≤ hi := by
  unfold std_clamp; split_ifs <;> linarith

/-- On nonnegative inputs the C++ int cast (truncation toward zero)
agrees with the mathematical floor. -/
theorem castInt_eq_floor (q : ℚ) (h : 0 ≤ q) : castInt q = ⌊q⌋ := by
  rw [castInt, if_neg (not_lt.2 h), Rat.floor_def', ← Rat.floor_def]

/-- Invariant of the Attack phase under iteration: starting a linear
Attack (`attackShape = 1`) from `phaseStartEnv = 0` at in-phase sample
0 with budget `n`, after `j < n` steps the engine is still in Attack at
in-phase sample `j`, with the interpolation parameters and the fields
read by the following Decay phase unchanged. -/
theorem attack_iter_invariant (x : t_adsr_tilde) (n : ℕ)
    (hph : x.phase = t_adsr_phase.Attack) (hs : x.phaseStartEnv = 0)
    (hsh : x.attackShape = 1) (hN : x.attackPhaseSamples = (n : ℤ))
    (hc : x.currentSample = 0) :
    ∀ j : ℕ, j < n →
      (phaseFunc^[j] x).phase = t_adsr_phase.Attack ∧
      (phaseFunc^[j] x).currentSample = (j : ℤ) ∧
      (phaseFunc^[j] x).phaseStartEnv = 0 ∧
      (phaseFunc^[j] x).attackShape = 1 ∧
      (phaseFunc^[j] x).attackPhaseSamples = (n : ℤ) ∧
      (phaseFunc^[j] x).sustainLevel = x.sustainLevel ∧
      (phaseFunc^[j] x).decayPhaseSamples = x.decayPhaseSamples := by
  intro j
  induction j with
  | zero =>
    intro _
    exact ⟨hph, by simpa using hc, hs, hsh, hN, rfl, rfl⟩
  | succ k ih =>
    intro hk
    obtain ⟨p1, p2, p3, p4, p5, p6, p7⟩ := ih (by omega)
    have hcond : ¬ ((k : ℤ) + 1 ≥ (n : ℤ)) := by
      have hkn : (k : ℤ) + 1 < (n : ℤ) := by exact_mod_cast hk
      omega
    rw [Function.iterate_succ_apply']
    simp [phaseFunc, p1, attackPhase, hcond, p2, p3, p4, p5, p6, p7]

/-- C1, code side: the render path is not division-safe.  Along the
documented control path — constructor, dsp setup at 44100 Hz, release
time set to 0 ms (`releasePhaseSamples` floored to 1), Start, Stop —
the engine reaches the Release phase with in-phase sample index 0 and
`releasePhaseSamples = 1`, so the Release evaluation's divisor
`releasePhaseSamples - 1` is 0 and the C++ computation
`currentSample / (releasePhaseSamples - 1)` is `0.0/0.0`, a NaN,
contradicting the claim that the floor of 1 makes every division safe. -/
theorem C1_release_divide_by_zero :
    divZeroRun.phase = t_adsr_phase.Release ∧
    divZeroRun.releaseTime = 0 ∧
    divZeroRun.releasePhaseSamples = 1 ∧
    divZeroRun.releasePhaseSamples - 1 = 0 ∧
    divZeroRun.currentSample = 0 := by
  norm_num [divZeroRun, adsr_new, adsr_dsp, adsr_release, adsr_trigger_start,
    adsr_trigger_stop, enter_phase, std_clamp, castInt, startupTime, Rat.floor_def']
  decide

/-- C2, counterexample: envelope continuity across an autonomous phase
boundary fails beyond any floating-point tolerance.  In the concrete
run `attackBoundaryRun` (one-sample linear Attack from value 0), the
last Attack sample computes envelope value 0, the engine then enters
Decay, and the first Decay sample computes envelope value 1 — a jump of
magnitude 1, not within a 1/100 tolerance. -/
theorem C2_boundary_counterexample :
    attackBoundaryRun.phase = t_adsr_phase.Attack ∧
    attackBoundaryRun.attackPhaseSamples = 1 ∧
    (phaseFunc attackBoundaryRun).currentEnv = 0 ∧
    (phaseFunc attackBoundaryRun).phase = t_adsr_phase.Decay ∧
    (phaseFunc (phaseFunc attackBoundaryRun)).currentEnv = 1 ∧
    ¬ |(phaseFunc attackBoundaryRun).currentEnv -
        (phaseFunc (phaseFunc attackBoundaryRun)).currentEnv| ≤ 1/100 := by
  norm_num [attackBoundaryRun, adsr_new, adsr_dsp, adsr_attack, adsr_attackshape,
    adsr_decay, adsr_trigger_start, enter_phase, std_clamp, castInt, startupTime,
    map_shape_to_exponent, Rat.floor_def', phaseFunc, attackPhase, decayPhase,
    power_lerp]

/-- C2, amended: at the Attack-to-Decay boundary (linear attack shape),
the last Attack sample evaluates the curve at progress
`(N-1)/N` — value `phaseStartEnv + (1 - phaseStartEnv) * (N-1)/N` —
while the first Decay sample evaluates to exactly 1, the attack curve's
endpoint; the boundary step is therefore exactly
`(1 - phaseStartEnv)/N` (up to the full envelope range when `N = 1`),
not zero within floating-point tolerance. -/
theorem C2_boundary_amended (x : t_adsr_tilde)
    (hph : x.phase = t_adsr_phase.Attack)
    (hc : x.currentSample = x.attackPhaseSamples - 1)
    (h1 : 1 ≤ x.attackPhaseSamples) (hsh : x.attackShape = 1)
    (hD : 1 ≤ x.decayPhaseSamples) :
    (phaseFunc x).phase = t_adsr_phase.Decay ∧
    (phaseFunc x).currentEnv =
      x.phaseStartEnv + (1 - x.phaseStartEnv) *
        (((x.attackPhaseSamples : ℚ) - 1) / (x.attackPhaseSamples : ℚ)) ∧
    1 - (phaseFunc x).currentEnv =
      (1 - x.phaseStartEnv) / (x.attackPhaseSamples : ℚ) ∧
    (phaseFunc (phaseFunc x)).currentEnv = 1 := by
  have hNne : ((x.attackPhaseSamples : ℤ) : ℚ) ≠ 0 := by
    have h : x.attackPhaseSamples ≠ 0 := by omega
    exact_mod_cast h
  have hcond : x.attackPhaseSamples - 1 + 1 ≥ x.attackPhaseSamples := by omega
  have hstep : phaseFunc x =
      enter_phase { x with
        currentEnv := x.phaseStartEnv + (1 - x.phaseStartEnv) *
          (((x.attackPhaseSamples : ℚ) - 1) / (x.attackPhaseSamples : ℚ)),
        currentSample := x.attackPhaseSamples - 1 + 1 } t_adsr_phase.Decay := by
    simp [phaseFunc, hph, attackPhase, hc, hsh, power_lerp, hcond]
  refine ⟨?_, ?_, ?_, ?_⟩
  · rw [hstep]; rfl
  · rw [hstep]; rfl
  · rw [hstep]
    show 1 - (x.phaseStartEnv + (1 - x.phaseStartEnv) *
      (((x.attackPhaseSamples : ℚ) - 1) / (x.attackPhaseSamples : ℚ))) =
      (1 - x.phaseStartEnv) / (x.attackPhaseSamples : ℚ)
    field_simp
    ring
  · rw [hstep]
    simp [phaseFunc, enter_phase, decayPhase]
    split_ifs <;> rfl

/-- C2, witness for the amended theorem at the concrete state
`attackEndState` (four-sample linear Attack at its last sample). -/
theorem C2_boundary_amended_witness :
    (phaseFunc attackEndState).phase = t_adsr_phase.Decay ∧
    (phaseFunc attackEndState).currentEnv =
      attackEndState.phaseStartEnv + (1 - attackEndState.phaseStartEnv) *
        (((attackEndState.attackPhaseSamples : ℚ) - 1) /
          (attackEndState.attackPhaseSamples : ℚ)) ∧
    1 - (phaseFunc attackEndState).currentEnv =
      (1 - attackEndState.phaseStartEnv) / (attackEndState.attackPhaseSamples : ℚ) ∧
    (phaseFunc (phaseFunc attackEndState)).currentEnv = 1 :=
  C2_boundary_amended attackEndState rfl (by decide) (by decide) rfl (by decide)

/-- C3, counterexample: with `startFromSilence` false, triggering Start
from Idle with value 0 (run `attackTwoSampleRun`, two-sample linear
Attack) yields envelope value 1/2 — not 1.0 within any reasonable
tolerance — at the last Attack sample (sample index
`attackPhaseSamples - 1 = 1` after the trigger), although the engine
does transition to Decay immediately after. -/
theorem C3_attack_counterexample :
    preTriggerState.phase = t_adsr_phase.Idle ∧
    preTriggerState.currentEnv = 0 ∧
    startFromSilence preTriggerState = false ∧
    attackTwoSampleRun.phase = t_adsr_phase.Attack ∧
    attackTwoSampleRun.attackPhaseSamples = 2 ∧
    (phaseFunc (phaseFunc attackTwoSampleRun)).currentEnv = 1/2 ∧
    (phaseFunc (phaseFunc attackTwoSampleRun)).phase = t_adsr_phase.Decay ∧
    ¬ (1 - (phaseFunc (phaseFunc attackTwoSampleRun)).currentEnv ≤ 1/100) := by
  norm_num [attackTwoSampleRun, preTriggerState, adsr_new, adsr_dsp, adsr_attack,
    adsr_attackshape, adsr_trigger_start, enter_phase, std_clamp, castInt,
    startupTime, map_shape_to_exponent, Rat.floor_def', phaseFunc, attackPhase,
    decayPhase, power_lerp, startFromSilence]

/-- C3, amended: with `startFromSilence` false, linear attack shape and
attack budget `n ≥ 1`, triggering Start from Idle with value 0 reaches
Decay after exactly `n` samples (in-phase counter reset to 0), but the
value at the last Attack sample is `(n-1)/n` — short of 1.0 by exactly
`1/n` — and the envelope first equals exactly 1.0 one sample later, at
the first Decay sample. -/
theorem C3_attack_run_amended (x : t_adsr_tilde) (n : ℕ)
    (hflag : startFromSilence x = false) (hph : x.phase = t_adsr_phase.Idle)
    (hcv : x.currentEnv = 0) (hsh : x.attackShape = 1)
    (hN : x.attackPhaseSamples = (n : ℤ)) (h1 : 1 ≤ n)
    (hD : 1 ≤ x.decayPhaseSamples) :
    (phaseFunc^[n] (adsr_trigger_start x)).phase = t_adsr_phase.Decay ∧
    (phaseFunc^[n] (adsr_trigger_start x)).currentSample = 0 ∧
    (phaseFunc^[n] (adsr_trigger_start x)).currentEnv = ((n : ℚ) - 1) / (n : ℚ) ∧
    (phaseFunc^[n + 1] (adsr_trigger_start x)).currentEnv = 1 := by
  have hb : x.startAtCurrentEnv = true := by
    simpa [startFromSilence] using hflag
  have f1 : (adsr_trigger_start x).phase = t_adsr_phase.Attack := by
    simp [adsr_trigger_start, hb, enter_phase]
  have f2 : (adsr_trigger_start x).phaseStartEnv = 0 := by
    simp [adsr_trigger_start, hb, enter_phase, hcv]
  have f3 : (adsr_trigger_start x).attackShape = 1 := by
    simp [adsr_trigger_start, hb, enter_phase, hsh]
  have f4 : (adsr_trigger_start x).attackPhaseSamples = (n : ℤ) := by
    simp [adsr_trigger_start, hb, enter_phase, hN]
  have f5 : (adsr_trigger_start x).currentSample = 0 := by
    simp [adsr_trigger_start, hb, enter_phase]
  have f6 : (adsr_trigger_start x).sustainLevel = x.sustainLevel := by
    simp [adsr_trigger_start, hb, enter_phase]
  have f7 : (adsr_trigger_start x).decayPhaseSamples = x.decayPhaseSamples := by
    simp [adsr_trigger_start, hb, enter_phase]
  obtain ⟨q1, q2, q3, q4, q5, q6, q7⟩ :=
    attack_iter_invariant (adsr_trigger_start x) n f1 f2 f3 f4 f5 (n - 1) (by omega)
  have q2' : (phaseFunc^[n - 1] (adsr_trigger_start x)).currentSample = (n : ℤ) - 1 := by
    rw [q2]; omega
  have hstepEq : phaseFunc^[n] (adsr_trigger_start x) =
      phaseFunc (phaseFunc^[n - 1] (adsr_trigger_start x)) := by
    conv_lhs => rw [show n = n - 1 + 1 by omega]
    rw [Function.iterate_succ_apply']
  have hcondz : (n : ℤ) - 1 + 1 ≥ (n : ℤ) := by omega
  have henv : ((phaseFunc^[n - 1] (adsr_trigger_start x)).currentSample : ℚ) /
      ((phaseFunc^[n - 1] (adsr_trigger_start x)).attackPhaseSamples : ℚ) =
      ((n : ℚ) - 1) / (n : ℚ) := by
    rw [q2', q5]; push_cast; ring_nf
  have hz_eval : phaseFunc (phaseFunc^[n - 1] (adsr_trigger_start x)) =
      enter_phase { (phaseFunc^[n - 1] (adsr_trigger_start x)) with
        currentEnv := ((n : ℚ) - 1) / (n : ℚ),
        currentSample := (phaseFunc^[n - 1] (adsr_trigger_start x)).currentSample + 1 }
        t_adsr_phase.Decay := by
    simp [phaseFunc, q1, attackPhase, power_lerp, q3, q4, henv, q2', q5, hcondz]
  refine ⟨?_, ?_, ?_, ?_⟩
  · rw [hstepEq, hz_eval]; rfl
  · rw [hstepEq, hz_eval]; rfl
  · rw [hstepEq, hz_eval]; rfl
  · rw [Function.iterate_succ_apply', hstepEq, hz_eval]
    simp [phaseFunc, enter_phase, decayPhase]
    split_ifs <;> rfl

/-- C3, witness for the amended theorem at `idleStartState` with a
three-sample linear Attack. -/
theorem C3_attack_run_amended_witness :
    (phaseFunc^[3] (adsr_trigger_start idleStartState)).phase = t_adsr_phase.Decay ∧
    (phaseFunc^[3] (adsr_trigger_start idleStartState)).currentSample = 0 ∧
    (phaseFunc^[3] (adsr_trigger_start idleStartState)).currentEnv =
      (((3 : ℕ) : ℚ) - 1) / ((3 : ℕ) : ℚ) ∧
    (phaseFunc^[3 + 1] (adsr_trigger_start idleStartState)).currentEnv = 1 :=
  C3_attack_run_amended idleStartState 3 rfl rfl rfl rfl (by decide) (by decide) (by decide)

/-- C4, counterexample: the derived sample counts use C++ int-cast
truncation, not rounding.  Setting attack time to 0.06 ms with sample
rate 44100 Hz stores `attackPhaseSamples = 2` (truncation of 2.646),
while the specified `max(1, round(timeMs * sampleRate / 1000))` is 3. -/
theorem C4_trunc_counterexample :
    (adsr_attack (adsr_new 1) (6/100)).attackPhaseSamples = 2 ∧
    max 1 (roundSpec ((6/100) * (adsr_new 1).samplerate / 1000)) = 3 ∧
    (2 : ℤ) ≠ 3 := by
  refine ⟨?_, ?_, by norm_num⟩
  · norm_num [adsr_attack, adsr_new, std_clamp, castInt, Rat.floor_def']
  · norm_num [roundSpec, adsr_new, Rat.floor_def']

/-- C4, amended: with a nonnegative samples-per-millisecond factor,
each derived phase sample count stored by a time setter equals
`max(1, floor(storedTimeMs * sampleratems))` — floor (truncation), not
round, of the clamped stored time (for release, the stored time is the
adjusted clamped time) — and the dsp setup stores
`max(1, floor(startupTime * sampleRate / 1000))`; every stored count is
at least 1. -/
theorem C4_sample_counts_amended (x : t_adsr_tilde) (f sr : ℚ)
    (h : 0 ≤ x.sampleratems) (hsr : 0 ≤ sr) :
    (adsr_attack x f).attackPhaseSamples =
      max 1 ⌊std_clamp f 0 10000 * x.sampleratems⌋ ∧
    (adsr_decay x f).decayPhaseSamples =
      max 1 ⌊std_clamp f 0 10000 * x.sampleratems⌋ ∧
    (adsr_release x f).releasePhaseSamples =
      max 1 ⌊(adsr_release x f).releaseTime * x.sampleratems⌋ ∧
    (adsr_dsp x sr).startupPhaseSamples =
      max 1 ⌊(startupTime : ℚ) * (sr / 1000)⌋ ∧
    1 ≤ (adsr_attack x f).attackPhaseSamples ∧
    1 ≤ (adsr_decay x f).decayPhaseSamples ∧
    1 ≤ (adsr_release x f).releasePhaseSamples ∧
    1 ≤ (adsr_dsp x sr).startupPhaseSamples := by
  have hcl : (0 : ℚ) ≤ std_clamp f 0 10000 :=
    std_clamp_lower f 0 10000 (by norm_num)
  have hcl2 : (0 : ℚ) ≤ (adsr_release x f).releaseTime :=
    std_clamp_lower _ 0 10000 (by norm_num)
  have hst : (0 : ℚ) ≤ (startupTime : ℚ) := by norm_num [startupTime]
  refine ⟨?_, ?_, ?_, ?_, le_max_left 1 _, le_max_left 1 _, le_max_left 1 _,
    le_max_left 1 _⟩
  · show max 1 (castInt (std_clamp f 0 10000 * x.sampleratems)) = _
    rw [castInt_eq_floor _ (mul_nonneg hcl h)]
  · show max 1 (castInt (std_clamp f 0 10000 * x.sampleratems)) = _
    rw [castInt_eq_floor _ (mul_nonneg hcl h)]
  · show max 1 (castInt ((adsr_release x f).releaseTime * x.sampleratems)) = _
    rw [castInt_eq_floor _ (mul_nonneg hcl2 h)]
  · show max 1 (castInt ((startupTime : ℚ) * (sr / 1000))) = _
    rw [castInt_eq_floor _ (mul_nonneg hst (by positivity))]

/-- C4, witness for the amended theorem: attack time 10 ms at a
samples-per-millisecond factor of 44. -/
theorem C4_sample_counts_amended_witness :
    (adsr_attack { adsr_new 1 with sampleratems := 44 } 10).attackPhaseSamples =
      max 1 ⌊std_clamp 10 0 10000 * ({ adsr_new 1 with sampleratems := 44 }).sampleratems⌋ :=
  (C4_sample_counts_amended { adsr_new 1 with sampleratems := 44 } 10 44100
    (by decide) (by decide)).1

/-- C5, counterexample: the constructor defaults differ from the
claimed ones in three fields: the stored decay time is 0.1 (the claim
says 100 ms), the stored release time is 0.2 (the claim says 200 ms),
and the attack shape exponent is 2.0 (the claim says 1.0, linear). -/
theorem C5_defaults_counterexample :
    (adsr_new 0).decayTime = 1/10 ∧ (adsr_new 0).decayTime ≠ 100 ∧
    (adsr_new 0).releaseTime = 1/5 ∧ (adsr_new 0).releaseTime ≠ 200 ∧
    (adsr_new 0).attackShape = 2 ∧ (adsr_new 0).attackShape ≠ 1 := by
  refine ⟨rfl, ?_, rfl, ?_, rfl, ?_⟩ <;> norm_num [adsr_new]

/-- C5, amended: immediately after construction (for any creation
argument) the parameter store holds attack time 0.01, decay time 0.1,
sustain level 0.7, release time 0.2, attack shape exponent 2.0, release
shape exponent 1.0 (linear) and gain 1.0, with the state machine in
Idle, `currentValue` 0, and the default 44100 Hz rate factors. -/
theorem C5_defaults_amended (f : ℚ) :
    (adsr_new f).attackTime = 1/100 ∧ (adsr_new f).decayTime = 1/10 ∧
    (adsr_new f).sustainLevel = 7/10 ∧ (adsr_new f).releaseTime = 1/5 ∧
    (adsr_new f).attackShape = 2 ∧ (adsr_new f).releaseShape = 1 ∧
    (adsr_new f).gain = 1 ∧ (adsr_new f).phase = t_adsr_phase.Idle ∧
    (adsr_new f).currentEnv = 0 ∧ (adsr_new f).samplerate = 44100 ∧
    (adsr_new f).sampleratems = 441/10 :=
  ⟨rfl, rfl, rfl, rfl, rfl, rfl, rfl, rfl, rfl, rfl, rfl⟩

/-- C6: Stop is a no-op (the whole state is unchanged) when the current
phase is Idle or Release — so two successive Stops equal one — and in
every other phase it captures `phaseStartValue = currentValue`, sets
the phase to Release and resets the in-phase sample counter to 0. -/
theorem C6_stop_behavior (x : t_adsr_tilde) :
    (x.phase = t_adsr_phase.Idle ∨ x.phase = t_adsr_phase.Release →
      adsr_trigger_stop x = x) ∧
    (x.phase ≠ t_adsr_phase.Idle → x.phase ≠ t_adsr_phase.Release →
      adsr_trigger_stop x =
        { x with phase := t_adsr_phase.Release, phaseStartEnv := x.currentEnv,
                 currentSample := 0 }) ∧
    adsr_trigger_stop (adsr_trigger_stop x) = adsr_trigger_stop x := by
  refine ⟨?_, ?_, ?_⟩
  · rintro (h | h) <;> simp [adsr_trigger_stop, h]
  · intro h1 h2
    simp [adsr_trigger_stop, enter_phase, h1, h2]
  · by_cases h1 : x.phase = t_adsr_phase.Idle
    · simp [adsr_trigger_stop, h1]
    · by_cases h2 : x.phase = t_adsr_phase.Release
      · simp [adsr_trigger_stop, h2]
      · simp [adsr_trigger_stop, enter_phase, h1, h2]

/-- C6, witness: Stop is a no-op on a concrete Release state and acts
as described on a concrete Sustain state. -/
theorem C6_stop_behavior_witness :
    adsr_trigger_stop { adsr_new 1 with phase := t_adsr_phase.Release } =
      { adsr_new 1 with phase := t_adsr_phase.Release } ∧
    adsr_trigger_stop { adsr_new 1 with phase := t_adsr_phase.Sustain } =
      { { adsr_new 1 with phase := t_adsr_phase.Sustain } with
          phase := t_adsr_phase.Release,
          phaseStartEnv := { adsr_new 1 with phase := t_adsr_phase.Sustain }.currentEnv,
          currentSample := 0 } :=
  ⟨(C6_stop_behavior { adsr_new 1 with phase := t_adsr_phase.Release }).1 (Or.inr rfl),
   (C6_stop_behavior { adsr_new 1 with phase := t_adsr_phase.Sustain }).2.1
     (by decide) (by decide)⟩

/-- C7: both shape setters store `map_shape_to_exponent f`, which
equals `1 + clamp(f,-1,1) * 0.9` for `f < 0` (value in [0.1, 1]) and
`1 + clamp(f,-1,1) * 9` for `f ≥ 0` (value in [1, 10]). -/
theorem C7_shape_setters (x : t_adsr_tilde) (f : ℚ) :
    (adsr_attackshape x f).attackShape = map_shape_to_exponent f ∧
    (adsr_releaseshape x f).releaseShape = map_shape_to_exponent f ∧
    (f < 0 → map_shape_to_exponent f = 1 + std_clamp f (-1) 1 * (9/10) ∧
      1/10 ≤ map_shape_to_exponent f ∧ map_shape_to_exponent f ≤ 1) ∧
    (0 ≤ f → map_shape_to_exponent f = 1 + std_clamp f (-1) 1 * 9 ∧
      1 ≤ map_shape_to_exponent f ∧ map_shape_to_exponent f ≤ 10) := by
  have hlo : (-1 : ℚ) ≤ std_clamp f (-1) 1 := std_clamp_lower f (-1) 1 (by norm_num)
  have hhi : std_clamp f (-1) 1 ≤ 1 := std_clamp_upper f (-1) 1 (by norm_num)
  refine ⟨rfl, rfl, ?_, ?_⟩
  · intro hf
    have hneg : std_clamp f (-1) 1 < 0 := by
      unfold std_clamp; split_ifs <;> linarith
    unfold map_shape_to_exponent
    rw [if_pos hneg]
    refine ⟨rfl, by linarith, by linarith⟩
  · intro hf
    have hnn : ¬ std_clamp f (-1) 1 < 0 := by
      unfold std_clamp; split_ifs <;> [linarith; linarith; linarith]
    unfold map_shape_to_exponent
    rw [if_neg hnn]
    push_neg at hnn
    refine ⟨rfl, by linarith, by linarith⟩

/-- C7, witness at the boundary inputs -1 (exponent 0.1) and 1
(exponent 10). -/
theorem C7_shape_setters_witness :
    ((adsr_attackshape (adsr_new 0) (-1)).attackShape = map_shape_to_exponent (-1) ∧
      map_shape_to_exponent (-1) = 1 + std_clamp (-1) (-1) 1 * (9/10) ∧
      1/10 ≤ map_shape_to_exponent (-1) ∧ map_shape_to_exponent (-1) ≤ 1) ∧
    ((adsr_releaseshape (adsr_new 0) 1).releaseShape = map_shape_to_exponent 1 ∧
      map_shape_to_exponent 1 = 1 + std_clamp 1 (-1) 1 * 9 ∧
      1 ≤ map_shape_to_exponent 1 ∧ map_shape_to_exponent 1 ≤ 10) :=
  ⟨⟨(C7_shape_setters (adsr_new 0) (-1)).1,
    (C7_shape_setters (adsr_new 0) (-1)).2.2.1 (by norm_num)⟩,
   ⟨(C7_shape_setters (adsr_new 0) 1).2.1,
    (C7_shape_setters (adsr_new 0) 1).2.2.2 (by norm_num)⟩⟩

/-- C8: the release setter stores `clamp(f - 3, 0, 10000)` when
`startFromSilence` is true (the fixed 3 ms startup duration is deducted
before clamping) and `clamp(f, 0, 10000)` with no adjustment when it is
false. -/
theorem C8_release_adjustment (x : t_adsr_tilde) (f : ℚ) :
    (startFromSilence x = true →
      (adsr_release x f).releaseTime = std_clamp (f - 3) 0 10000) ∧
    (startFromSilence x = false →
      (adsr_release x f).releaseTime = std_clamp f 0 10000) := by
  constructor
  · intro h
    have hb : x.startAtCurrentEnv = false := by
      simpa [startFromSilence] using h
    simp [adsr_release, hb, startupTime]
  · intro h
    have hb : x.startAtCurrentEnv = true := by
      simpa [startFromSilence] using h
    simp [adsr_release, hb]

/-- C8, witness: requesting 5 ms stores 2 ms in start-from-silence
mode (constructor argument 0) and 5 ms otherwise (argument 1). -/
theorem C8_release_adjustment_witness :
    (adsr_release (adsr_new 0) 5).releaseTime = std_clamp (5 - 3) 0 10000 ∧
    (adsr_release (adsr_new 1) 5).releaseTime = std_clamp 5 0 10000 :=
  ⟨(C8_release_adjustment (adsr_new 0) 5).1 (by norm_num [startFromSilence, adsr_new]),
   (C8_release_adjustment (adsr_new 1) 5).2 (by norm_num [startFromSilence, adsr_new])⟩

/-- C9, counterexample: not every setter stores the clamp of its input.
The release-shape setter called with 1 stores the mapped exponent 10,
while the clamp of the input to its documented range [-1, 1] is 1. -/
theorem C9_setter_counterexample :
    (adsr_releaseshape (adsr_new 1) 1).releaseShape = 10 ∧
    std_clamp 1 (-1) 1 = 1 ∧ (10 : ℚ) ≠ 1 := by
  refine ⟨?_, ?_, by norm_num⟩
  · norm_num [adsr_releaseshape, map_shape_to_exponent, std_clamp]
  · norm_num [std_clamp]

/-- C9, amended: each setter stores a sanitized value in its documented
range — the direct clamp of the input for sustain, gain, attack and
decay; the clamp of the adjusted input for release; the mapped exponent
in [0.1, 10] for the shapes — and every setter is idempotent: calling
it twice with the same value leaves exactly the state of one call. -/
theorem C9_setters_amended (x : t_adsr_tilde) (f : ℚ) :
    (adsr_sustain x f).sustainLevel = std_clamp f 0 1 ∧
    (adsr_g x f).gain = std_clamp f 0 1 ∧
    (adsr_attack x f).attackTime = std_clamp f 0 10000 ∧
    (adsr_decay x f).decayTime = std_clamp f 0 10000 ∧
    (adsr_release x f).releaseTime =
      std_clamp (f - (if startFromSilence x then (3 : ℚ) else 0)) 0 10000 ∧
    (adsr_attackshape x f).attackShape = map_shape_to_exponent f ∧
    (adsr_releaseshape x f).releaseShape = map_shape_to_exponent f ∧
    1/10 ≤ map_shape_to_exponent f ∧ map_shape_to_exponent f ≤ 10 ∧
    0 ≤ (adsr_sustain x f).sustainLevel ∧ (adsr_sustain x f).sustainLevel ≤ 1 ∧
    0 ≤ (adsr_g x f).gain ∧ (adsr_g x f).gain ≤ 1 ∧
    0 ≤ (adsr_attack x f).attackTime ∧ (adsr_attack x f).attackTime ≤ 10000 ∧
    0 ≤ (adsr_decay x f).decayTime ∧ (adsr_decay x f).decayTime ≤ 10000 ∧
    0 ≤ (adsr_release x f).releaseTime ∧ (adsr_release x f).releaseTime ≤ 10000 ∧
    adsr_sustain (adsr_sustain x f) f = adsr_sustain x f ∧
    adsr_g (adsr_g x f) f = adsr_g x f ∧
    adsr_attack (adsr_attack x f) f = adsr_attack x f ∧
    adsr_decay (adsr_decay x f) f = adsr_decay x f ∧
    adsr_release (adsr_release x f) f = adsr_release x f ∧
    adsr_attackshape (adsr_attackshape x f) f = adsr_attackshape x f ∧
    adsr_releaseshape (adsr_releaseshape x f) f = adsr_releaseshape x f := by
  have hlo := std_clamp_lower f (-1) 1 (show (-1:ℚ) ≤ 1 by norm_num)
  have hhi := std_clamp_upper f (-1) 1 (show (-1:ℚ) ≤ 1 by norm_num)
  have hrange : 1/10 ≤ map_shape_to_exponent f ∧ map_shape_to_exponent f ≤ 10 := by
    simp only [map_shape_to_exponent]
    split_ifs with h <;> constructor <;> linarith
  refine ⟨rfl, rfl, rfl, rfl, ?_, rfl, rfl, hrange.1, hrange.2,
    std_clamp_lower f 0 1 (by norm_num), std_clamp_upper f 0 1 (by norm_num),
    std_clamp_lower f 0 1 (by norm_num), std_clamp_upper f 0 1 (by norm_num),
    std_clamp_lower f 0 10000 (by norm_num), std_clamp_upper f 0 10000 (by norm_num),
    std_clamp_lower f 0 10000 (by norm_num), std_clamp_upper f 0 10000 (by norm_num),
    ?_, ?_, ?_, ?_, ?_, ?_, ?_, ?_, ?_⟩
  · cases hb : x.startAtCurrentEnv <;>
      simp [adsr_release, startFromSilence, startupTime, hb]
  · exact std_clamp_lower _ 0 10000 (by norm_num)
  · exact std_clamp_upper _ 0 10000 (by norm_num)
  · simp [adsr_sustain]
  · simp [adsr_g]
  · simp [adsr_attack]
  · simp [adsr_decay]
  · simp [adsr_release]
  · simp [adsr_attackshape]
  · simp [adsr_releaseshape]

/-- C10: entering Release with a linear release shape and a budget of
at least two samples, the evaluation at the final Release sample
(in-phase index `releasePhaseSamples - 1`) computes progress
`(N-1)/(N-1) = 1` and envelope value exactly 0, and the engine then
transitions to Idle. -/
theorem C10_release_last_sample (x : t_adsr_tilde)
    (hph : x.phase = t_adsr_phase.Release) (hsh : x.releaseShape = 1)
    (h2 : 2 ≤ x.releasePhaseSamples)
    (hc : x.currentSample = x.releasePhaseSamples - 1) :
    (phaseFunc x).currentEnv = 0 ∧ (phaseFunc x).phase = t_adsr_phase.Idle := by
  have hne : ((x.releasePhaseSamples : ℚ) - 1) ≠ 0 := by
    have h : ((x.releasePhaseSamples - 1 : ℤ) : ℚ) ≠ 0 := by
      have h0 : x.releasePhaseSamples - 1 ≠ 0 := by omega
      exact_mod_cast h0
    push_cast at h
    exact h
  have hcond : x.releasePhaseSamples - 1 + 1 ≥ x.releasePhaseSamples := by omega
  simp [phaseFunc, hph, releasePhase, hc, hsh, power_lerp, enter_phase,
    div_self hne, hcond]

/-- C10, witness at the concrete state `releaseEndState` (two-sample
linear Release at its last sample). -/
theorem C10_release_last_sample_witness :
    (phaseFunc releaseEndState).currentEnv = 0 ∧
    (phaseFunc releaseEndState).phase = t_adsr_phase.Idle :=
  C10_release_last_sample releaseEndState rfl rfl (by decide) (by decide)
